import Mathlib

/-!
Shallow embedding of the `hyper_log` media-pipeline scripts (`main.py` and
`youtube.py`).  Python floats (durations, epoch timestamps) are modelled as
rationals; Python `dict.get` fallbacks as `Option.getD`; code paths that raise
an exception as `Except Unit`.  Line numbers refer to the source files.
-/

namespace HyperLog

/-- Python `f"{n:02d}"`: render `n` in decimal, zero-padded to width two. -/
def pad2 (n : Int) : String :=
  let s := toString n
  if s.length < 2 then "0" ++ s else s

/-- Python floor division `x // n` for a float `x` and positive literal `n`
(the float result is an exact integer, so the subsequent `int(...)` in the
source is the identity). -/
def pyFloorDiv (x n : ℚ) : Int := Int.floor (x / n)

/-- Python modulo `x % n`: the remainder has the sign of the divisor. -/
def pyMod (x n : ℚ) : ℚ := x - n * Int.floor (x / n)

/-- Python `int(x)` on a float: truncation toward zero. -/
def pyInt (x : ℚ) : Int := if 0 ≤ x then Int.floor x else Int.ceil x

/-- `main.py` lines 325-329 and 351-354: format a second count as `HH:MM:SS`. -/
def formatHMS (x : ℚ) : String :=
  pad2 (pyFloorDiv x 3600) ++ ":" ++ pad2 (pyFloorDiv (pyMod x 3600) 60) ++ ":" ++
    pad2 (pyInt (pyMod x 60))

/-- `main.py` lines 331-334: format a duration as `MM:SS`. -/
def formatMS (d : ℚ) : String :=
  pad2 (pyFloorDiv d 60) ++ ":" ++ pad2 (pyInt (pyMod d 60))

/-- A bookmark as consumed by the date filter (`main.py` lines 110-114).
`createdAt` is the UTC epoch-millisecond instant of the bookmark's ISO
`createdAt` field (the source converts via `fromisoformat(...).timestamp()*1000`
after normalizing the trailing `Z` to `+00:00`). -/
structure Bookmark where
  createdAt : ℚ
  url : String
  title : String
deriving Repr, DecidableEq

/-- `main.py` lines 111-114: keep exactly the bookmarks whose creation instant
satisfies the chained comparison `start_ts <= t <= end_ts`. -/
def filtered_bookmarks (startTs endTs : ℚ) (bs : List Bookmark) : List Bookmark :=
  bs.filter (fun b => decide (startTs ≤ b.createdAt) && decide (b.createdAt ≤ endTs))

/-- A Matrix room event as consumed by the history walk (`main.py` lines
145-152); `origin_server_ts` is in epoch milliseconds. -/
structure MatrixEvent where
  origin_server_ts : ℚ
  body : String
deriving Repr, DecidableEq

/-- One page of the Matrix `/messages` response.  `chunk = none` models a
response without a `chunk` key (the source substitutes the default `[{}]`);
`endTok` models the `end` continuation token, `none` when the key is absent. -/
structure MatrixResp where
  chunk : Option (List MatrixEvent)
  endTok : Option String
deriving Repr, DecidableEq

/-- Python truthiness test `not from_token`: `None` and the empty string are
falsy. -/
def cursorFalsy : Option String → Bool
  | none => true
  | some s => decide (s = "")

/-- One evaluation of the loop-exit test of the backward pagination loop,
`main.py` lines 151-153:

    from_token = matrix_resp.get('end')
    if not from_token or (matrix_resp.get('chunk', [{}])[-1].get('origin_server_ts', 0) < start_ts):
        break

`.ok true` models `break`, `.ok false` models continuing with the next page,
and `.error ()` models the `IndexError` raised by `[][-1]` when the response
carries a `chunk` key holding an empty list (Python's `or` short-circuits, so
the indexing is only reached when the cursor is truthy).  A missing `chunk`
key defaults to `[{}]`, whose last element has default timestamp `0`. -/
def loopExitCheck (startTs : ℚ) (resp : MatrixResp) : Except Unit Bool :=
  if cursorFalsy resp.endTok then .ok true
  else
    match resp.chunk with
    | none => .ok (decide ((0 : ℚ) < startTs))
    | some [] => .error ()
    | some (e :: es) => .ok (decide ((es.getLastD e).origin_server_ts < startTs))

/-- `main.py` line 159: `urls = list(set(urls + matrix_urls))`.  Python's set
iteration order is unspecified; the model returns the distinct elements of the
concatenation (Mathlib's `dedup`), which agrees with `list(set(...))` as a
multiset: each distinct URL appears exactly once. -/
def dedup_urls (urls matrixUrls : List String) : List String :=
  (urls ++ matrixUrls).dedup

/-- The metadata record stored per video id, `main.py` lines 192-197.
`duration` is optional because the filename-fallback record of lines 319-323
carries no duration key. -/
structure VideoMeta where
  title : String
  url : String
  duration : Option ℚ
  uploader : String
deriving Repr, DecidableEq

/-- The JSON metadata printed by the prober for one URL (`yt-dlp -j`), as read
at `main.py` lines 179-196: every field the script consumes is optional. -/
structure ProbeMeta where
  id : Option String
  title : Option String
  uploader : Option String
  webpage_url : Option String
  duration : Option ℚ
deriving Repr, DecidableEq

/-- Python `url.split('/')[-1]` (`main.py` line 191): the final `/`-separated
segment; `split` always returns a non-empty list, so the default is unused. -/
def lastSegment (url : String) : String := (url.splitOn "/").getLastD ""

/-- One iteration of the download loop, `main.py` lines 169-210.  The argument
`probe` is `none` when the prober's stdout fails to parse as JSON, otherwise
the parsed metadata.  The result is `none` when the URL is skipped (no
metadata persisted, no download invoked), and `some (videoId, meta)` when
metadata is stored under `videoId` and the downloader is invoked. -/
def processUrl (url : String) (probe : Option ProbeMeta) : Option (String × VideoMeta) :=
  match probe with
  | none => none
  | some m =>
    match m.duration with
    | none => none
    | some d =>
      if 180 < d then none
      else
        some (m.id.getD (lastSegment url),
          { title := m.title.getD "Untitled"
            url := m.webpage_url.getD url
            duration := some d
            uploader := m.uploader.getD "Unknown" })

/-- Keep/delete decision of the post-download duration filter, `main.py` lines
229-236: keep when the probed duration parses and is at most 180 seconds,
delete when it parses above 180, keep when it cannot be parsed. -/
def keepAfterProbe (probe : Option ℚ) : Bool :=
  match probe with
  | some d => decide (d ≤ 180)
  | none => true

/-- The post-download filter loop, `main.py` lines 218-236, over the sorted
download directory.  Each file is paired with the parse of its `ffprobe`
duration output (`none` when `float(...)` raises).  Returns the retained files
and the deleted files, in traversal order. -/
def postDownloadFilter : List (String × Option ℚ) → List String × List String
  | [] => ([], [])
  | (f, probe) :: rest =>
    let (kept, deleted) := postDownloadFilter rest
    if keepAfterProbe probe then (f :: kept, deleted) else (kept, f :: deleted)

/-- `main.py` lines 262-268: decide whether the normalized target must be
(re-)encoded, given whether it exists and its size in bytes. -/
def needs_normalization (targetExists : Bool) (targetSize : Nat) : Bool :=
  if targetExists then
    if 1024 < targetSize then false else true
  else true

/-- The externally visible actions of one normalization step, `main.py` lines
259-290: whether the stale target was unlinked and whether the encoder ran. -/
structure NormAction where
  deletedTarget : Bool
  ranEncoder : Bool
deriving Repr, DecidableEq

/-- One normalization step for one input file, `main.py` lines 259-290: an
existing target larger than 1024 bytes is kept as-is (no encode); an existing
target of at most 1024 bytes is unlinked and re-encoded; a missing target is
encoded. -/
def normalizeStep (targetExists : Bool) (targetSize : Nat) : NormAction :=
  { deletedTarget := targetExists && !(decide (1024 < targetSize))
    ranEncoder := needs_normalization targetExists targetSize }

/-- `main.py` lines 242-247: in `--merge-only` mode the metadata JSON is loaded
when the file exists; otherwise the metadata dictionary is initialized empty
(the run does not fail). -/
def loadMetadata (fileContents : Option (List (String × VideoMeta))) :
    List (String × VideoMeta) :=
  fileContents.getD []

/-- `main.py` lines 318-323: `video_metadata.get(video_id, {...})` with the
filename-derived fallback record. -/
def lookup_metadata (md : List (String × VideoMeta)) (videoId : String) : VideoMeta :=
  (md.lookup videoId).getD
    { title := videoId
      url := "https://unknown/" ++ videoId
      duration := none
      uploader := "Unknown" }

/-- One row of the compilation report, `main.py` lines 336-346. -/
structure ReportRow where
  index : Nat
  title : String
  url : String
  uploader : String
  timestamp : String
  timestamp_seconds : Int
  duration : String
  duration_seconds : ℚ
  video_id : String
deriving Repr, DecidableEq

/-- The duration the report loop uses for one normalized file (`main.py` lines
310-313): the parsed `ffprobe` output, or `0.0` when parsing raises. -/
def row_duration (fp : String × Option ℚ) : ℚ := fp.2.getD 0

/-- The row built for one normalized file, `main.py` lines 315-346, at running
total `cum` with `count` rows already emitted. -/
def report_row (md : List (String × VideoMeta)) (stem : String) (probe : Option ℚ)
    (cum : ℚ) (count : Nat) : ReportRow :=
  let duration := probe.getD 0
  let m := lookup_metadata md stem
  { index := count + 1
    title := m.title
    url := m.url
    uploader := m.uploader
    timestamp := formatHMS cum
    timestamp_seconds := pyInt cum
    duration := formatMS duration
    duration_seconds := duration
    video_id := stem }

/-- The report loop of `main.py` lines 296-348, walking the normalized files
(each paired with its parsed `ffprobe` duration) with the running
`cumulative_timestamp` `cum` and the number of rows emitted so far. -/
def compilation_videos_from (md : List (String × VideoMeta)) :
    List (String × Option ℚ) → ℚ → Nat → List ReportRow
  | [], _, _ => []
  | (stem, probe) :: rest, cum, count =>
    report_row md stem probe cum count ::
      compilation_videos_from md rest (cum + probe.getD 0) (count + 1)

/-- The full report row list, starting from `cumulative_timestamp = 0.0` and an
empty row list (`main.py` lines 296-298). -/
def compilation_videos (md : List (String × VideoMeta))
    (files : List (String × Option ℚ)) : List ReportRow :=
  compilation_videos_from md files 0 0

/-- The value of `cumulative_timestamp` after the report loop, `main.py` line
348: the left fold of the durations over `0.0`. -/
def cumulative_timestamp (files : List (String × Option ℚ)) : ℚ :=
  files.foldl (fun c fp => c + fp.2.getD 0) 0

/-- `main.py` lines 350-354: the reported total duration string. -/
def total_duration_str (files : List (String × Option ℚ)) : String :=
  formatHMS (cumulative_timestamp files)

/-- `youtube.py` line 104: `max(Path('compilation').glob('*.mp4'), key=mtime)`.
Each candidate is a `(stem, mtime)` pair.  Python's `max` raises `ValueError`
on an empty sequence, modelled as `.error ()`; on ties it keeps the earliest
element, as the fold does. -/
def findLatestCompilation (mp4s : List (String × ℚ)) : Except Unit (String × ℚ) :=
  match mp4s with
  | [] => .error ()
  | f :: fs => .ok (fs.foldl (fun best g => if best.2 < g.2 then g else best) f)

/-- The upload request body assembled at `youtube.py` lines 116-125. -/
structure UploadRequest where
  title : String
  categoryId : String
  privacyStatus : String
deriving Repr, DecidableEq

/-- The upload entry point after authentication, `youtube.py` lines 102-136:
locate the newest compilation mp4, then build the upload request.  When
locating the video raises, the request is never built and no upload is
attempted. -/
def uploadRun (mp4s : List (String × ℚ)) : Except Unit UploadRequest :=
  match findLatestCompilation mp4s with
  | .error e => .error e
  | .ok (stem, _) =>
    .ok { title := "Video Compilation - " ++ stem
          categoryId := "22"
          privacyStatus := "private" }

end HyperLog

namespace HyperLog

/-- Truncation toward zero agrees with the floor on nonnegative rationals. -/
theorem pyInt_of_nonneg {x : ℚ} (h : 0 ≤ x) : pyInt x = Int.floor x := by
  simp [pyInt, h]

/-- The report loop's left fold of durations equals the initial value plus the
sum of the durations. -/
theorem foldl_add_durations (files : List (String × Option ℚ)) :
    ∀ c : ℚ, files.foldl (fun c fp => c + fp.2.getD 0) c = c + (files.map row_duration).sum := by
  induction files with
  | nil => intro c; simp
  | cons fp rest ih =>
    intro c
    simp [List.foldl_cons, ih, row_duration, add_assoc]

/-- The final `cumulative_timestamp` is the sum of all row durations. -/
theorem cumulative_timestamp_eq_sum (files : List (String × Option ℚ)) :
    cumulative_timestamp files = (files.map row_duration).sum := by
  rw [cumulative_timestamp, foldl_add_durations, zero_add]

/-- Positional characterization of the report loop: the `i`-th row is built for
the `i`-th file, at a running total of the initial value plus the durations of
the preceding files, with the row counter advanced by `i`. -/
theorem compilation_videos_from_get (md : List (String × VideoMeta)) :
    ∀ (fs : List (String × Option ℚ)) (c : ℚ) (n i : Nat),
      (compilation_videos_from md fs c n)[i]? =
        (fs[i]?).map (fun fp =>
          report_row md fp.1 fp.2 (c + ((fs.take i).map row_duration).sum) (n + i)) := by
  intro fs
  induction fs with
  | nil => intro c n i; simp [compilation_videos_from]
  | cons fp rest ih =>
    intro c n i
    obtain ⟨s, p⟩ := fp
    cases i with
    | zero => simp [compilation_videos_from, report_row]
    | succ i =>
      simp only [compilation_videos_from, List.getElem?_cons_succ, ih, List.take_succ_cons,
        List.map_cons, List.sum_cons, row_duration]
      congr 1
      funext fp
      congr 1
      · ring
      · omega

/-- A prefix of nonnegative durations has a nonnegative sum. -/
theorem take_durations_nonneg {fs : List (String × Option ℚ)}
    (h : ∀ fp ∈ fs, 0 ≤ row_duration fp) (i : Nat) :
    0 ≤ ((fs.take i).map row_duration).sum := by
  apply List.sum_nonneg
  intro q hq
  obtain ⟨fp, hfp, rfl⟩ := List.mem_map.1 hq
  exact h fp (List.take_subset i fs hfp)

/-- Claim C1 (amended): for every sequence of normalized files with
nonnegative durations, each report row's `timestamp_seconds` equals the floor
of the sum of the durations of all preceding rows (hence that sum itself
whenever it is a whole number of seconds), the `timestamp` string is the
`HH:MM:SS` rendering of that running sum, the `duration` string is the `MM:SS`
rendering of the row's duration, and the reported total is the `HH:MM:SS`
rendering of the sum of all durations; in particular, for durations
[30s, 45s, 12s] the timestamps are 00:00:00, 00:00:30, 00:01:15 and the total
is 00:01:27. -/
theorem C1_amended (md : List (String × VideoMeta)) (fs : List (String × Option ℚ))
    (hnn : ∀ fp ∈ fs, 0 ≤ row_duration fp) :
    (∀ i fp, fs[i]? = some fp →
      ∃ r, (compilation_videos md fs)[i]? = some r ∧
        r.timestamp_seconds = Int.floor (((fs.take i).map row_duration).sum) ∧
        r.timestamp = formatHMS (((fs.take i).map row_duration).sum) ∧
        r.duration = formatMS (row_duration fp) ∧
        r.duration_seconds = row_duration fp) ∧
    total_duration_str fs = formatHMS ((fs.map row_duration).sum) ∧
    (compilation_videos [] [("a", some 30), ("b", some 45), ("c", some 12)]).map
        ReportRow.timestamp = ["00:00:00", "00:00:30", "00:01:15"] ∧
    total_duration_str [("a", some (30 : ℚ)), ("b", some 45), ("c", some 12)] = "00:01:27" := by
  refine ⟨?_, ?_, ?_, ?_⟩
  · intro i fp hfp
    rw [compilation_videos, compilation_videos_from_get, hfp]
    refine ⟨_, rfl, ?_, ?_, ?_, ?_⟩
    · simp only [report_row]
      rw [zero_add, pyInt_of_nonneg (take_durations_nonneg hnn i)]
    · simp only [report_row]
      rw [zero_add]
    · simp [report_row, row_duration]
    · simp [report_row, row_duration]
  · rw [total_duration_str, cumulative_timestamp_eq_sum]
  · norm_num [compilation_videos, compilation_videos_from, report_row, formatHMS,
      pyFloorDiv, pyMod, pyInt]
    decide
  · norm_num [total_duration_str, cumulative_timestamp, formatHMS, pyFloorDiv, pyMod, pyInt]
    decide

/-- Witness for C1: on the concrete two-file list with durations 30s and 45s,
the second row starts at offset 30 and renders as 00:00:30. -/
theorem C1_witness :
    (∀ fp ∈ [("a", some (30 : ℚ)), ("b", some 45)], 0 ≤ row_duration fp) ∧
    ∃ r, (compilation_videos [] [("a", some (30 : ℚ)), ("b", some 45)])[1]? = some r ∧
      r.timestamp_seconds = 30 ∧ r.timestamp = "00:00:30" := by
  have hnn : ∀ fp ∈ [("a", some (30 : ℚ)), ("b", some 45)], 0 ≤ row_duration fp := by
    norm_num [row_duration]
  obtain ⟨h1, -, -, -⟩ := C1_amended [] [("a", some (30 : ℚ)), ("b", some 45)] hnn
  obtain ⟨r, hr, hts, htstr, -, -⟩ := h1 1 ("b", some 45) rfl
  refine ⟨hnn, r, hr, ?_, ?_⟩
  · rw [hts]; norm_num [row_duration]
  · rw [htstr]
    have : (([("a", some (30 : ℚ)), ("b", some 45)].take 1).map row_duration).sum = 30 := by
      norm_num [row_duration]
    rw [this]
    norm_num [formatHMS, pyFloorDiv, pyMod, pyInt]
    decide

/-- Counterexample to C1 as stated: with fractional durations [0.5s, 1s] the
second row's `timestamp_seconds` is `int(0.5) = 0`, while the sum of the
durations of the preceding rows is 0.5, so the offset does not equal that
sum. -/
theorem C1_counterexample :
    ((compilation_videos [] [("a", some ((1 : ℚ)/2)), ("b", some 1)])[1]?).map
        (fun r => (r.timestamp_seconds : ℚ)) = some 0 ∧
    (([("a", some ((1 : ℚ)/2)), ("b", some 1)].take 1).map row_duration).sum = 1/2 ∧
    (0 : ℚ) ≠ 1/2 := by
  refine ⟨?_, by norm_num [row_duration], by norm_num⟩
  norm_num [compilation_videos, compilation_videos_from, report_row, pyInt]

/-- Claim C2: when the deterministic normalized target already exists with
size strictly greater than 1024 bytes, the normalization step deletes nothing
and invokes no encode; when it exists with size at most 1024 bytes, the target
is unlinked and the encoder is invoked again. -/
theorem C2_idempotent_normalization (size : Nat) :
    (1024 < size → normalizeStep true size = ⟨false, false⟩) ∧
    (size ≤ 1024 → normalizeStep true size = ⟨true, true⟩) := by
  constructor
  · intro h
    simp [normalizeStep, needs_normalization, h]
  · intro h
    simp [normalizeStep, needs_normalization, Nat.not_lt.mpr h]

/-- Witness for C2: a 2048-byte target is left untouched, a 0-byte target is
deleted and re-encoded. -/
theorem C2_witness :
    (1024 < 2048 ∧ normalizeStep true 2048 = ⟨false, false⟩) ∧
    (0 ≤ 1024 ∧ normalizeStep true 0 = ⟨true, true⟩) :=
  ⟨⟨by norm_num, (C2_idempotent_normalization 2048).1 (by norm_num)⟩,
   ⟨by norm_num, (C2_idempotent_normalization 0).2 (by norm_num)⟩⟩

/-- Claim C3: a candidate URL is skipped (no metadata persisted, no download
invoked) exactly when its probe output fails to parse, carries no duration, or
carries a duration exceeding 180 seconds; a probed duration of 181 seconds is
excluded and one of exactly 180 seconds is included. -/
theorem C3_duration_gate (url : String) (probe : Option ProbeMeta) :
    (processUrl url probe = none ↔
      probe = none ∨ (∃ m, probe = some m ∧ m.duration = none) ∨
        (∃ m d, probe = some m ∧ m.duration = some d ∧ 180 < d)) ∧
    (∀ m : ProbeMeta, m.duration = some 181 → processUrl url (some m) = none) ∧
    (∀ m : ProbeMeta, m.duration = some 180 → processUrl url (some m) ≠ none) := by
  refine ⟨?_, ?_, ?_⟩
  · cases probe with
    | none => simp [processUrl]
    | some m =>
      cases hd : m.duration with
      | none => simp [processUrl, hd]
      | some d =>
        simp only [processUrl, hd]
        by_cases h : 180 < d
        · simp only [if_pos h]
          constructor
          · intro _
            exact Or.inr (Or.inr ⟨m, d, rfl, hd, h⟩)
          · intro _
            trivial
        · simp only [if_neg h]
          constructor
          · intro hc
            exact absurd hc (by simp)
          · rintro (hc | ⟨m2, hm2, hd2⟩ | ⟨m2, d2, hm2, hd2, hgt⟩)
            · exact absurd hc (by simp)
            · obtain rfl := Option.some.inj hm2
              rw [hd] at hd2
              exact absurd hd2 (by simp)
            · obtain rfl := Option.some.inj hm2
              rw [hd] at hd2
              obtain rfl := Option.some.inj hd2
              exact absurd hgt h
  · intro m hm
    simp only [processUrl, hm]
    norm_num
  · intro m hm
    simp only [processUrl, hm]
    norm_num
    simp

/-- Witness for C3: a probe reporting 181 seconds is skipped, one reporting
exactly 180 seconds is downloaded. -/
theorem C3_witness :
    processUrl "https://example.com/v/abc" (some ⟨none, none, none, none, some 181⟩) = none ∧
    processUrl "https://example.com/v/abc" (some ⟨none, none, none, none, some 180⟩) ≠ none :=
  ⟨(C3_duration_gate "https://example.com/v/abc"
      (some ⟨none, none, none, none, some 181⟩)).2.1 _ rfl,
   (C3_duration_gate "https://example.com/v/abc"
      (some ⟨none, none, none, none, some 180⟩)).2.2 _ rfl⟩

/-- Claim C4: the bookmark window filter returns exactly the items whose
creation instant lies in the closed interval from `startTs` to `endTs`
(UTC epoch-millisecond instants): membership is characterized by the inclusive
bounds and the result is a subsequence of the input. -/
theorem C4_window_filter (startTs endTs : ℚ) (bs : List Bookmark) :
    (∀ b, b ∈ filtered_bookmarks startTs endTs bs ↔
      b ∈ bs ∧ startTs ≤ b.createdAt ∧ b.createdAt ≤ endTs) ∧
    (filtered_bookmarks startTs endTs bs).Sublist bs := by
  constructor
  · intro b
    simp [filtered_bookmarks, List.mem_filter, and_assoc]
  · exact List.filter_sublist _

/-- Claim C5: the backward pagination loop's exit test breaks whenever the
continuation cursor is absent or empty (with no error raised, thanks to the
short-circuit), and on every page with a non-empty chunk it breaks exactly
when the cursor is exhausted or the oldest event of the page predates the
window start. -/
theorem C5_pagination_exit (startTs : ℚ) (resp : MatrixResp) :
    (cursorFalsy resp.endTok = true → loopExitCheck startTs resp = .ok true) ∧
    (∀ e es, resp.chunk = some (e :: es) →
      (loopExitCheck startTs resp = .ok true ↔
        cursorFalsy resp.endTok = true ∨ (es.getLastD e).origin_server_ts < startTs)) := by
  constructor
  · intro h
    simp [loopExitCheck, h]
  · intro e es hc
    by_cases h : cursorFalsy resp.endTok
    · simp [loopExitCheck, h]
    · simp [loopExitCheck, h, hc]

/-- Witness for C5: a page whose only (hence oldest) event predates the window
start breaks even with a live cursor, and a missing cursor breaks even when
the page's events are inside the window. -/
theorem C5_witness :
    loopExitCheck 1000 ⟨some [⟨500, "hello"⟩], some "tok"⟩ = .ok true ∧
    loopExitCheck 1000 ⟨some [⟨1500, "hello"⟩], none⟩ = .ok true := by
  constructor
  · exact ((C5_pagination_exit 1000 ⟨some [⟨500, "hello"⟩], some "tok"⟩).2 ⟨500, "hello"⟩ []
      rfl).2 (Or.inr (by norm_num [List.getLastD]))
  · exact (C5_pagination_exit 1000 ⟨some [⟨1500, "hello"⟩], none⟩).1 rfl

/-- The post-download filter keeps exactly the files whose probe passes
`keepAfterProbe` and deletes the rest, preserving traversal order. -/
theorem postDownloadFilter_eq (files : List (String × Option ℚ)) :
    postDownloadFilter files =
      ((files.filter (fun fp => keepAfterProbe fp.2)).map Prod.fst,
       (files.filter (fun fp => !keepAfterProbe fp.2)).map Prod.fst) := by
  induction files with
  | nil => rfl
  | cons fp rest ih =>
    obtain ⟨f, probe⟩ := fp
    by_cases h : keepAfterProbe probe
    · simp [postDownloadFilter, ih, h]
    · simp [postDownloadFilter, ih, h]

/-- Claim C6: the post-download duration check deletes a downloaded file
exactly when its probed duration parses and exceeds 180 seconds; a parsed
duration of at most 180 seconds and an unparsable duration both keep the file
in the working set. -/
theorem C6_post_download_filter (files : List (String × Option ℚ)) :
    (postDownloadFilter files).1 = (files.filter (fun fp => keepAfterProbe fp.2)).map Prod.fst ∧
    (postDownloadFilter files).2 = (files.filter (fun fp => !keepAfterProbe fp.2)).map Prod.fst ∧
    (∀ d : ℚ, 180 < d → keepAfterProbe (some d) = false) ∧
    (∀ d : ℚ, d ≤ 180 → keepAfterProbe (some d) = true) ∧
    keepAfterProbe none = true := by
  refine ⟨?_, ?_, ?_, ?_, rfl⟩
  · rw [postDownloadFilter_eq]
  · rw [postDownloadFilter_eq]
  · intro d h
    exact decide_eq_false (not_le.mpr h)
  · intro d h
    exact decide_eq_true h

/-- Witness for C6: a 181-second file is deleted, a 179-second file is kept. -/
theorem C6_witness :
    (180 < (181 : ℚ) ∧ keepAfterProbe (some (181 : ℚ)) = false) ∧
    ((179 : ℚ) ≤ 180 ∧ keepAfterProbe (some (179 : ℚ)) = true) :=
  ⟨⟨by norm_num, (C6_post_download_filter []).2.2.1 181 (by norm_num)⟩,
   ⟨by norm_num, (C6_post_download_filter []).2.2.2.1 179 (by norm_num)⟩⟩

/-- Claim C7: when the union of the bookmark-derived and chat-derived URL
lists contains duplicates, the deduplicated result contains each URL of the
union exactly once and nothing else. -/
theorem C7_dedup (urls matrixUrls : List String) (_hdup : ¬ (urls ++ matrixUrls).Nodup) :
    (∀ u, u ∈ urls ++ matrixUrls → (dedup_urls urls matrixUrls).count u = 1) ∧
    (∀ u, u ∉ urls ++ matrixUrls → (dedup_urls urls matrixUrls).count u = 0) ∧
    (∀ u, u ∈ dedup_urls urls matrixUrls ↔ u ∈ urls ++ matrixUrls) := by
  refine ⟨?_, ?_, ?_⟩
  · intro u hu
    rw [dedup_urls, List.count_dedup]
    simp [hu]
  · intro u hu
    rw [dedup_urls, List.count_dedup]
    simp [hu]
  · intro u
    rw [dedup_urls]
    exact List.mem_dedup

/-- Witness for C7: with an overlap between the two source lists, the shared
URL occurs exactly once after deduplication. -/
theorem C7_witness :
    ¬ (["https://a.example/1", "https://b.example/2"] ++ ["https://b.example/2"]).Nodup ∧
    (dedup_urls ["https://a.example/1", "https://b.example/2"]
        ["https://b.example/2"]).count "https://b.example/2" = 1 :=
  ⟨by decide,
   (C7_dedup ["https://a.example/1", "https://b.example/2"] ["https://b.example/2"]
      (by decide)).1 "https://b.example/2" (by decide)⟩

/-- Claim C8: in `--merge-only` mode with no prior metadata JSON for the date,
metadata is initialized empty rather than failing, and every report row built
for a file absent from metadata uses the filename stem as its title and
video id, with the fallback url and uploader values. -/
theorem C8_merge_only_fallback (files : List (String × Option ℚ)) (i : Nat)
    (fp : String × Option ℚ) (hf : files[i]? = some fp) :
    loadMetadata none = [] ∧
    ∃ r, (compilation_videos (loadMetadata none) files)[i]? = some r ∧
      r.title = fp.1 ∧ r.url = "https://unknown/" ++ fp.1 ∧ r.uploader = "Unknown" ∧
      r.video_id = fp.1 := by
  refine ⟨rfl, ?_⟩
  rw [compilation_videos, compilation_videos_from_get, hf]
  refine ⟨_, rfl, ?_, ?_, ?_, ?_⟩ <;>
    simp [report_row, lookup_metadata, loadMetadata]

/-- Witness for C8: with no metadata file, the single row for `video_xyz`
falls back to the filename-derived title and the fallback url and uploader. -/
theorem C8_witness :
    ∃ r, (compilation_videos (loadMetadata none) [("video_xyz", some (10 : ℚ))])[0]? = some r ∧
      r.title = "video_xyz" ∧ r.url = "https://unknown/video_xyz" ∧ r.uploader = "Unknown" := by
  obtain ⟨-, r, hr, h1, h2, h3, -⟩ :=
    C8_merge_only_fallback [("video_xyz", some (10 : ℚ))] 0 ("video_xyz", some 10) rfl
  exact ⟨r, hr, h1, by rw [h2]; rfl, h3⟩

/-- Claim C9: a response carrying a non-empty continuation cursor together
with a `chunk` field holding an empty list drives the loop-exit test into
indexing the last element of an empty list, raising an index error (the run
crashes instead of terminating cleanly). -/
theorem C9_empty_chunk_crash :
    loopExitCheck 1000 ⟨some [], some "cursor"⟩ = .error () := by
  simp [loopExitCheck, cursorFalsy]

/-- Claim C10: when the compilation directory contains no `.mp4` file, taking
the most recently modified compilation video is the maximum of an empty
sequence and raises, so the upload script fails before any upload request is
built. -/
theorem C10_empty_compilation_dir :
    findLatestCompilation [] = .error () ∧ uploadRun [] = .error () :=
  ⟨rfl, rfl⟩

end HyperLog
